import Mathlib

/-!
Verification of `src/browser/eventPlugins/TapEventPlugin.js`.

The file shallowly embeds the module's tap-gesture recognizer: the
coordinate extractor `getAxisCoordOfEvent`, the proximity/timing gate
`getDistance` / `touchWithinBoundaries`, the device-arbitration checks and
the gesture state machine, all inside `extractEvents`.

Modelling conventions:
* JavaScript numbers that occur here are integers or `NaN`; `JSNum` is an
  integer or `nan`, with subtraction/addition/multiplication propagating
  `nan` and every `<` comparison involving `nan` evaluating to `false`,
  exactly as IEEE comparisons on `NaN` do.
* Fields that may hold `null` or `undefined` (the module-level
  `lastTouchEvent`, the event's `timeStamp`, the `startCoords` axes) are
  `JSVal`; `toNumber` is JavaScript numeric coercion (`null ↦ 0`,
  `undefined ↦ NaN`).
* External collaborators are modelled as data: `TouchEventUtils.extractSingleTouch`
  as the event's `singleTouch` field, `ViewportMetrics` and `+new Date()` as
  the per-event environment `Env`, `SyntheticUIEvent.getPooled` as the
  `TapDecision` record, `EventPropagators.accumulateTwoPhaseDispatches` as
  the returned decision itself (it has no effect on the recognizer state).
* The in-place write `nativeEvent.timeStamp = +new Date()` is modelled by
  returning the (possibly updated) event object as `StepResult.finalEvent`.
-/

namespace TapEventPluginModel

/-- A JavaScript numeric value appearing in this module: an integer or `NaN`. -/
inductive JSNum where
  | num (v : Int)
  | nan
deriving DecidableEq

/-- A JavaScript value for fields that may be `null`, `undefined`, `NaN` or a
number. -/
inductive JSVal where
  | null
  | undef
  | nan
  | num (v : Int)
deriving DecidableEq

/-- JavaScript numeric coercion `ToNumber`: `null ↦ 0`, `undefined ↦ NaN`. -/
def toNumber : JSVal → JSNum
  | .null => .num 0
  | .undef => .nan
  | .nan => .nan
  | .num v => .num v

/-- JavaScript truthiness of a `JSVal`: `null`, `undefined`, `NaN` and `0` are
falsy. -/
def truthy : JSVal → Bool
  | .null => false
  | .undef => false
  | .nan => false
  | .num v => v != 0

/-- JavaScript subtraction on numbers: `NaN` propagates. -/
def jsub : JSNum → JSNum → JSNum
  | .num a, .num b => .num (a - b)
  | _, _ => .nan

/-- JavaScript addition on numbers: `NaN` propagates. -/
def jadd : JSNum → JSNum → JSNum
  | .num a, .num b => .num (a + b)
  | _, _ => .nan

/-- JavaScript multiplication on numbers: `NaN` propagates. -/
def jmul : JSNum → JSNum → JSNum
  | .num a, .num b => .num (a * b)
  | _, _ => .nan

/-- JavaScript `<` on numbers: any comparison involving `NaN` is `false`. -/
def jlt : JSNum → JSNum → Bool
  | .num a, .num b => a < b
  | _, _ => false

/-- The `topLevelType` tags this plugin is registered for
(`EventConstants.topLevelTypes`, restricted to the plugin's dependencies). -/
inductive TopLevelType where
  | topMouseDown
  | topMouseMove
  | topMouseUp
  | topTouchCancel
  | topTouchEnd
  | topTouchStart
  | topTouchMove
deriving DecidableEq

/-- `isTouch` from the source: membership of the `topLevelType` in the four
touch types. -/
def isTouch (t : TopLevelType) : Bool :=
  t = .topTouchCancel || t = .topTouchEnd || t = .topTouchStart || t = .topTouchMove

/-- Modelled from the spec: `EventPluginUtils.isStartish` is an external
classification (not under `src/`); per the spec, start-ish events are the
press-down events (mouse down, touch start). -/
def isStartish (t : TopLevelType) : Bool :=
  t = .topMouseDown || t = .topTouchStart

/-- Modelled from the spec: `EventPluginUtils.isEndish` is an external
classification (not under `src/`); per the spec, end-ish events are the
release events (mouse up, touch end, touch cancel). -/
def isEndish (t : TopLevelType) : Bool :=
  t = .topMouseUp || t = .topTouchEnd || t = .topTouchCancel

/-- `tapMoveThreshold`: pixels tolerated between `touchStart` and `touchEnd`. -/
def tapMoveThreshold : Int := 10

/-- `ignoreMouseThreshold`: ms after a touch during which mouse events are
suppressed. -/
def ignoreMouseThreshold : Int := 750

/-- `tapDelay`: minimum time between tap events. -/
def tapDelay : Int := 200

/-- `tapMaxTime`: max time between start and end of touch. -/
def tapMaxTime : Int := 600

/-- The single touch point extracted by the external collaborator
`TouchEventUtils.extractSingleTouch`; a missing page field reads as
`undefined`. -/
structure SingleTouch where
  pageX : Option Int
  pageY : Option Int
deriving DecidableEq

/-- The native browser event, restricted to the fields this module reads.
`singleTouch` is the (externally computed) result of
`TouchEventUtils.extractSingleTouch`; `pageX`/`pageY` being `none` models the
field being absent (so `axis.page in nativeEvent` is false); `clientX`/`clientY`
being `none` models an `undefined` client coordinate. -/
structure NativeEvent where
  timeStamp : JSVal
  singleTouch : Option SingleTouch
  pageX : Option Int
  pageY : Option Int
  clientX : Option Int
  clientY : Option Int
deriving DecidableEq

/-- Per-event external environment: the `ViewportMetrics` scroll offsets and
the current clock `+new Date()`. -/
structure Env where
  currentPageScrollLeft : Int
  currentPageScrollTop : Int
  now : Int
deriving DecidableEq

/-- The axis record `Axis = {x: {...}, y: {...}}` of the source, as a tag. -/
inductive Axis where
  | x
  | y
deriving DecidableEq

/-- Field selection `singleTouch[axis.page]`. -/
def SingleTouch.pageCoord (s : SingleTouch) : Axis → Option Int
  | .x => s.pageX
  | .y => s.pageY

/-- Field selection `nativeEvent[axis.page]` with its presence bit. -/
def NativeEvent.pageCoord (e : NativeEvent) : Axis → Option Int
  | .x => e.pageX
  | .y => e.pageY

/-- Field selection `nativeEvent[axis.client]`. -/
def NativeEvent.clientCoord (e : NativeEvent) : Axis → Option Int
  | .x => e.clientX
  | .y => e.clientY

/-- Field selection `ViewportMetrics[axis.envScroll]`. -/
def Env.envScroll (env : Env) : Axis → Int
  | .x => env.currentPageScrollLeft
  | .y => env.currentPageScrollTop

/-- `getAxisCoordOfEvent` from the source: the single touch's page
coordinate when a single touch is extractable (reading an absent field gives
`undefined`); otherwise the event's own page coordinate when present;
otherwise `clientCoordinate + scrollOffset`, which is `NaN` when the client
coordinate is `undefined`. -/
def getAxisCoordOfEvent (axis : Axis) (e : NativeEvent) (env : Env) : JSVal :=
  match e.singleTouch with
  | some touch =>
    match touch.pageCoord axis with
    | some v => .num v
    | none => .undef
  | none =>
    match e.pageCoord axis with
    | some v => .num v
    | none =>
      match e.clientCoord axis with
      | some c => .num (c + env.envScroll axis)
      | none => .nan

/-- The `startCoords` record: each axis is `null` initially, and after a
start-ish event holds whatever `getAxisCoordOfEvent` produced. -/
structure Coords where
  x : JSVal
  y : JSVal
deriving DecidableEq

/-- The squared Euclidean distance computed inside `getDistance`:
`(pageX - coords.x)^2 + (pageY - coords.y)^2`, with JavaScript coercions and
`NaN` propagation. -/
def getDistanceSq (coords : Coords) (e : NativeEvent) (env : Env) : JSNum :=
  let pageX := toNumber (getAxisCoordOfEvent .x e env)
  let pageY := toNumber (getAxisCoordOfEvent .y e env)
  let dx := jsub pageX (toNumber coords.x)
  let dy := jsub pageY (toNumber coords.y)
  jadd (jmul dx dx) (jmul dy dy)

/-- The comparison `getDistance(startCoords, nativeEvent) < tapMoveThreshold`
of the source. The source computes `Math.pow(dx*dx + dy*dy, 0.5)` and compares
it with `tapMoveThreshold`; for integer inputs the square root is monotone, so
this equals comparing the squared distance with `tapMoveThreshold^2`, and a
`NaN` square sum compares `false` exactly as in JavaScript. The equivalence
with the real square root is proved below. -/
def getDistanceLtThreshold (coords : Coords) (e : NativeEvent) (env : Env) : Bool :=
  jlt (getDistanceSq coords e env) (.num (tapMoveThreshold * tapMoveThreshold))

/-- `touchWithinBoundaries` from the source, with the module-level
`startCoords` and `startTime` passed explicitly:
`getDistance(startCoords, e) < tapMoveThreshold && (e.timeStamp - startTime) < tapMaxTime`. -/
def touchWithinBoundaries (startCoords : Coords) (startTime : JSNum)
    (e : NativeEvent) (env : Env) : Bool :=
  getDistanceLtThreshold startCoords e env &&
    jlt (jsub (toNumber e.timeStamp) startTime) (.num tapMaxTime)

/-- The module-level mutable state of the recognizer: `startCoords`,
`startTime`, `lastTouchEvent`, `lastTapTime`, `trackingTouchEvent`. -/
structure GestureState where
  startCoords : Coords
  startTime : JSNum
  lastTouchEvent : JSVal
  lastTapTime : JSNum
  trackingTouchEvent : Bool
deriving DecidableEq

/-- The initial module state:
`startCoords = {x: null, y: null}`, `startTime = 0`, `lastTouchEvent = null`,
`lastTapTime = 0`, `trackingTouchEvent = false`. -/
def initialState : GestureState :=
  { startCoords := { x := .null, y := .null }
    startTime := .num 0
    lastTouchEvent := .null
    lastTapTime := .num 0
    trackingTouchEvent := false }

/-- The emitted tap decision: the source builds
`SyntheticUIEvent.getPooled(eventTypes.touchTap, topLevelTargetID, nativeEvent)`;
the recognizer's own contribution is the target id and the native event. -/
structure TapDecision where
  targetID : Nat
  nativeEvent : NativeEvent
deriving DecidableEq

/-- The defaulting `if (nativeEvent.timeStamp == null) nativeEvent.timeStamp = +new Date()`;
loose equality `== null` is true exactly for `null` and `undefined`. -/
def defaultTimeStamp (now : Int) (e : NativeEvent) : NativeEvent :=
  if e.timeStamp = .null ∨ e.timeStamp = .undef then
    { e with timeStamp := .num now }
  else
    e

/-- The result of one `extractEvents` call: the returned accumulation (here at
most one tap decision), the updated module state, and the native event object
as left behind by the in-place `timeStamp` write. -/
structure StepResult where
  decision : Option TapDecision
  state : GestureState
  finalEvent : NativeEvent
deriving DecidableEq

/-- The gesture state machine: the tail of `extractEvents` after device
arbitration (`isStartish` / `isEndish` / move-ish branches of the source). -/
def gestureMachine (t : TopLevelType) (targetID : Nat) (e : NativeEvent)
    (env : Env) (s : GestureState) : Option TapDecision × GestureState :=
  if isStartish t then
    (none,
      { s with
          startCoords :=
            { x := getAxisCoordOfEvent .x e env, y := getAxisCoordOfEvent .y e env }
          startTime := toNumber e.timeStamp
          trackingTouchEvent := true })
  else if isEndish t then
    if s.trackingTouchEvent && touchWithinBoundaries s.startCoords s.startTime e env then
      (some { targetID := targetID, nativeEvent := e },
        { s with
            lastTapTime := toNumber e.timeStamp
            startCoords := { x := .num 0, y := .num 0 }
            trackingTouchEvent := false })
    else
      (none,
        { s with
            startCoords := { x := .num 0, y := .num 0 }
            trackingTouchEvent := false })
  else
    if s.trackingTouchEvent && !touchWithinBoundaries s.startCoords s.startTime e env then
      (none, { s with trackingTouchEvent := false })
    else
      (none, s)

/-- `extractEvents` from the source: default the timestamp in place, run
device arbitration (touch branch records `lastTouchEvent` then debounces
against `lastTapTime`; mouse branch suppresses when a truthy `lastTouchEvent`
is recent), then run the gesture state machine. -/
def extractEvents (t : TopLevelType) (targetID : Nat) (e0 : NativeEvent)
    (env : Env) (s : GestureState) : StepResult :=
  let e := defaultTimeStamp env.now e0
  if isTouch t then
    let s1 := { s with lastTouchEvent := e.timeStamp }
    if jlt (jsub (toNumber e.timeStamp) s1.lastTapTime) (.num tapDelay) then
      { decision := none, state := s1, finalEvent := e }
    else
      let p := gestureMachine t targetID e env s1
      { decision := p.1, state := p.2, finalEvent := e }
  else
    if truthy s.lastTouchEvent &&
        jlt (jsub (toNumber e.timeStamp) (toNumber s.lastTouchEvent))
          (.num ignoreMouseThreshold) then
      { decision := none, state := s, finalEvent := e }
    else
      let p := gestureMachine t targetID e env s
      { decision := p.1, state := p.2, finalEvent := e }

/-- The device-arbitration outcome of `extractEvents`, as a predicate: a touch
event is accepted unless `timeStamp - lastTapTime < tapDelay`; a mouse event is
accepted unless `lastTouchEvent` is truthy and
`timeStamp - lastTouchEvent < ignoreMouseThreshold`. -/
def accepted (t : TopLevelType) (e0 : NativeEvent) (env : Env) (s : GestureState) : Bool :=
  let e := defaultTimeStamp env.now e0
  if isTouch t then
    !jlt (jsub (toNumber e.timeStamp) s.lastTapTime) (.num tapDelay)
  else
    !(truthy s.lastTouchEvent &&
      jlt (jsub (toNumber e.timeStamp) (toNumber s.lastTouchEvent))
        (.num ignoreMouseThreshold))

/-- The state after the arbitration prologue alone: a touch event records its
(defaulted) timestamp in `lastTouchEvent` before the debounce check; a mouse
event records nothing. -/
def arbiterState (t : TopLevelType) (e : NativeEvent) (s : GestureState) : GestureState :=
  if isTouch t then { s with lastTouchEvent := e.timeStamp } else s

/-- One input to the recognizer: the arguments of one `extractEvents` call
together with the external environment at that instant. -/
structure Input where
  topLevelType : TopLevelType
  targetID : Nat
  nativeEvent : NativeEvent
  env : Env
deriving DecidableEq

/-- The state after processing one input. -/
def stepState (s : GestureState) (i : Input) : GestureState :=
  (extractEvents i.topLevelType i.targetID i.nativeEvent i.env s).state

/-- `accepted` at the point of an input. -/
def acceptedAt (s : GestureState) (i : Input) : Bool :=
  accepted i.topLevelType i.nativeEvent i.env s

/-- The state after processing a list of inputs from a given state. -/
def runFrom (s : GestureState) (l : List Input) : GestureState :=
  l.foldl stepState s

/-- The state after processing a list of inputs from the initial state. -/
def run (l : List Input) : GestureState :=
  runFrom initialState l

/-- All tap decisions emitted while processing a list of inputs from a given
state, in order. -/
def runTapsFrom (s : GestureState) : List Input → List TapDecision
  | [] => []
  | i :: rest =>
    let r := extractEvents i.topLevelType i.targetID i.nativeEvent i.env s
    match r.decision with
    | some d => d :: runTapsFrom r.state rest
    | none => runTapsFrom r.state rest

/-- All tap decisions emitted while processing a list of inputs from the
initial state. -/
def runTaps (l : List Input) : List TapDecision :=
  runTapsFrom initialState l

/-- No input of the list is an accepted start-ish or accepted end-ish event,
walking the state forward from `s`. -/
def noGestureBoundaryFrom (s : GestureState) : List Input → Bool
  | [] => true
  | i :: rest =>
    !(acceptedAt s i && (isStartish i.topLevelType || isEndish i.topLevelType)) &&
      noGestureBoundaryFrom (stepState s i) rest

/-- The coordinates a start-ish input records into `startCoords`. -/
def inputStartCoords (i : Input) : Coords :=
  { x := getAxisCoordOfEvent .x (defaultTimeStamp i.env.now i.nativeEvent) i.env
    y := getAxisCoordOfEvent .y (defaultTimeStamp i.env.now i.nativeEvent) i.env }

/-- The timestamp a start-ish input records into `startTime`. -/
def inputStartTime (i : Input) : JSNum :=
  toNumber (defaultTimeStamp i.env.now i.nativeEvent).timeStamp

/-- `extractEvents` factored through arbitration: when the event is accepted
the gesture machine runs on the arbitration state; when rejected the result is
`none` and only the arbitration prologue's write is visible. -/
theorem extractEvents_eq (t : TopLevelType) (targetID : Nat) (e0 : NativeEvent)
    (env : Env) (s : GestureState) :
    extractEvents t targetID e0 env s =
      if accepted t e0 env s then
        { decision := (gestureMachine t targetID (defaultTimeStamp env.now e0) env
            (arbiterState t (defaultTimeStamp env.now e0) s)).1
          state := (gestureMachine t targetID (defaultTimeStamp env.now e0) env
            (arbiterState t (defaultTimeStamp env.now e0) s)).2
          finalEvent := defaultTimeStamp env.now e0 }
      else
        { decision := none
          state := arbiterState t (defaultTimeStamp env.now e0) s
          finalEvent := defaultTimeStamp env.now e0 } := by
  unfold extractEvents accepted arbiterState
  cases h : isTouch t <;> simp only [if_true, if_false, Bool.false_eq_true, ite_false, ite_true]
  · cases hm : truthy s.lastTouchEvent &&
        jlt (jsub (toNumber (defaultTimeStamp env.now e0).timeStamp)
          (toNumber s.lastTouchEvent)) (.num ignoreMouseThreshold) <;>
      simp [hm]
  · cases hd : jlt (jsub (toNumber (defaultTimeStamp env.now e0).timeStamp) s.lastTapTime)
        (.num tapDelay) <;> simp [hd]

/-- The arbitration prologue leaves `startCoords` unchanged. -/
@[simp] theorem arbiterState_startCoords (t : TopLevelType) (e : NativeEvent)
    (s : GestureState) : (arbiterState t e s).startCoords = s.startCoords := by
  unfold arbiterState
  split <;> rfl

/-- The arbitration prologue leaves `startTime` unchanged. -/
@[simp] theorem arbiterState_startTime (t : TopLevelType) (e : NativeEvent)
    (s : GestureState) : (arbiterState t e s).startTime = s.startTime := by
  unfold arbiterState
  split <;> rfl

/-- The arbitration prologue leaves `lastTapTime` unchanged. -/
@[simp] theorem arbiterState_lastTapTime (t : TopLevelType) (e : NativeEvent)
    (s : GestureState) : (arbiterState t e s).lastTapTime = s.lastTapTime := by
  unfold arbiterState
  split <;> rfl

/-- The arbitration prologue leaves `trackingTouchEvent` unchanged. -/
@[simp] theorem arbiterState_tracking (t : TopLevelType) (e : NativeEvent)
    (s : GestureState) : (arbiterState t e s).trackingTouchEvent = s.trackingTouchEvent := by
  unfold arbiterState
  split <;> rfl

/-- The gesture machine never writes `lastTouchEvent`. -/
theorem gestureMachine_lastTouchEvent (t : TopLevelType) (targetID : Nat)
    (e : NativeEvent) (env : Env) (s : GestureState) :
    (gestureMachine t targetID e env s).2.lastTouchEvent = s.lastTouchEvent := by
  unfold gestureMachine
  split_ifs <;> rfl

/-- The gesture machine never writes `startTime` except on a start-ish event. -/
theorem gestureMachine_startTime (t : TopLevelType) (targetID : Nat)
    (e : NativeEvent) (env : Env) (s : GestureState) (h : isStartish t = false) :
    (gestureMachine t targetID e env s).2.startTime = s.startTime := by
  unfold gestureMachine
  rw [h]
  simp only [Bool.false_eq_true, if_false]
  split_ifs
  all_goals rfl

/-- An emitted decision comes only from the end-ish branch with an open
tracking state and a passing gate, and carries the target id and the event;
the machine then records the event's timestamp as `lastTapTime`. -/
theorem gestureMachine_decision (t : TopLevelType) (targetID : Nat)
    (e : NativeEvent) (env : Env) (s : GestureState) (d : TapDecision)
    (h : (gestureMachine t targetID e env s).1 = some d) :
    d = { targetID := targetID, nativeEvent := e } ∧
    s.trackingTouchEvent = true ∧
    touchWithinBoundaries s.startCoords s.startTime e env = true ∧
    (gestureMachine t targetID e env s).2.lastTapTime = toNumber e.timeStamp := by
  unfold gestureMachine at h ⊢
  split_ifs at h ⊢ with h1 h2 h3
  all_goals simp_all

/-- A not-yet-defaulted `null`/`undefined` timestamp is the only case the
defaulting step rewrites; afterwards the timestamp is a number or `NaN`. -/
theorem defaultTimeStamp_cases (now : Int) (e : NativeEvent) :
    (defaultTimeStamp now e).timeStamp = .nan ∨
    ∃ v, (defaultTimeStamp now e).timeStamp = .num v := by
  unfold defaultTimeStamp
  by_cases h : e.timeStamp = .null ∨ e.timeStamp = .undef
  · rw [if_pos h]
    exact Or.inr ⟨now, rfl⟩
  · rw [if_neg h]
    push_neg at h
    cases hts : e.timeStamp
    · exact absurd hts h.1
    · exact absurd hts h.2
    · exact Or.inl rfl
    · exact Or.inr ⟨_, rfl⟩

/-- The event object handed back by `extractEvents` is always the
timestamp-defaulted input event. -/
theorem extractEvents_finalEvent (t : TopLevelType) (targetID : Nat)
    (e0 : NativeEvent) (env : Env) (s : GestureState) :
    (extractEvents t targetID e0 env s).finalEvent = defaultTimeStamp env.now e0 := by
  rw [extractEvents_eq]
  split <;> rfl

/-- An end-ish event is never start-ish. -/
theorem endish_not_startish (t : TopLevelType) (h : isEndish t = true) :
    isStartish t = false := by
  cases t <;> simp_all [isEndish, isStartish]

/-- Defaulting the timestamp does not change what the coordinate extractor
reads. -/
theorem getAxisCoordOfEvent_default (axis : Axis) (now : Int) (e : NativeEvent) (env : Env) :
    getAxisCoordOfEvent axis (defaultTimeStamp now e) env = getAxisCoordOfEvent axis e env := by
  unfold defaultTimeStamp
  split <;> rfl

/-- A touch event at a timestamp and page position, as the plugin sees it:
the single-touch selector finds one touch with page coordinates. -/
def touchEventAt (ts x y : Int) : NativeEvent :=
  { timeStamp := .num ts
    singleTouch := some { pageX := some x, pageY := some y }
    pageX := none
    pageY := none
    clientX := none
    clientY := none }

/-- A mouse event at a timestamp and page position. -/
def mouseEventAt (ts x y : Int) : NativeEvent :=
  { timeStamp := .num ts
    singleTouch := none
    pageX := some x
    pageY := some y
    clientX := none
    clientY := none }

/-- An unscrolled environment with the clock at zero. -/
def flatEnv : Env :=
  { currentPageScrollLeft := 0, currentPageScrollTop := 0, now := 0 }

/-- An input to the recognizer with target id 7 in the flat environment. -/
def inputOf (t : TopLevelType) (e : NativeEvent) : Input :=
  { topLevelType := t, targetID := 7, nativeEvent := e, env := flatEnv }

/-- C1. When the state is tracking and an accepted end-ish event passes the
proximity/timing gate relative to the stored start, `extractEvents` returns
exactly one tap decision carrying the incoming event's target id and (defaulted)
native event, sets `lastTapTime` to the event's timestamp, resets `startCoords`
to the neutral origin and clears tracking (state Idle). -/
theorem claim1_tap_emission (t : TopLevelType) (targetID : Nat) (e0 : NativeEvent)
    (env : Env) (s : GestureState)
    (hend : isEndish t = true)
    (hacc : accepted t e0 env s = true)
    (htr : s.trackingTouchEvent = true)
    (hgate : touchWithinBoundaries s.startCoords s.startTime
      (defaultTimeStamp env.now e0) env = true) :
    (extractEvents t targetID e0 env s).decision =
      some { targetID := targetID, nativeEvent := defaultTimeStamp env.now e0 } ∧
    (extractEvents t targetID e0 env s).state.lastTapTime =
      toNumber (defaultTimeStamp env.now e0).timeStamp ∧
    (extractEvents t targetID e0 env s).state.startCoords =
      { x := JSVal.num 0, y := JSVal.num 0 } ∧
    (extractEvents t targetID e0 env s).state.trackingTouchEvent = false := by
  have hns : isStartish t = false := endish_not_startish t hend
  rw [extractEvents_eq, if_pos hacc]
  unfold gestureMachine
  rw [hns, hend]
  simp only [Bool.false_eq_true, if_false, if_true, arbiterState_startCoords,
    arbiterState_startTime, arbiterState_tracking, htr, hgate, Bool.and_self, ite_true]
  exact ⟨trivial, trivial, trivial, trivial⟩

/-- C1 witness: a touch start at (100,100), t = 1000, followed by a touch end
at (103,104), t = 1300 (distance 5 < 10, elapsed 300 < 600) emits one tap. -/
theorem claim1_tap_emission_witness :
    (extractEvents .topTouchEnd 7 (touchEventAt 1300 103 104) flatEnv
        (run [inputOf .topTouchStart (touchEventAt 1000 100 100)])).decision =
      some { targetID := 7,
             nativeEvent := defaultTimeStamp flatEnv.now (touchEventAt 1300 103 104) } ∧
    (extractEvents .topTouchEnd 7 (touchEventAt 1300 103 104) flatEnv
        (run [inputOf .topTouchStart (touchEventAt 1000 100 100)])).state.lastTapTime =
      toNumber (defaultTimeStamp flatEnv.now (touchEventAt 1300 103 104)).timeStamp ∧
    (extractEvents .topTouchEnd 7 (touchEventAt 1300 103 104) flatEnv
        (run [inputOf .topTouchStart (touchEventAt 1000 100 100)])).state.startCoords =
      { x := JSVal.num 0, y := JSVal.num 0 } ∧
    (extractEvents .topTouchEnd 7 (touchEventAt 1300 103 104) flatEnv
        (run [inputOf .topTouchStart (touchEventAt 1000 100 100)])).state.trackingTouchEvent =
      false :=
  claim1_tap_emission .topTouchEnd 7 (touchEventAt 1300 103 104) flatEnv
    (run [inputOf .topTouchStart (touchEventAt 1000 100 100)])
    (by decide) (by decide) (by decide) (by decide)

/-- C3. A touch-origin event always records its (defaulted) timestamp as
`lastTouchEvent` first; when the timestamp minus `lastTapTime` is strictly
below `tapDelay` the call returns no event and the remaining state fields
(`startCoords`, `startTime`, `trackingTouchEvent`, `lastTapTime`) are
untouched. -/
theorem claim3_touch_debounce (t : TopLevelType) (targetID : Nat) (e0 : NativeEvent)
    (env : Env) (s : GestureState)
    (htouch : isTouch t = true) :
    (extractEvents t targetID e0 env s).state.lastTouchEvent =
      (defaultTimeStamp env.now e0).timeStamp ∧
    (jlt (jsub (toNumber (defaultTimeStamp env.now e0).timeStamp) s.lastTapTime)
        (.num tapDelay) = true →
      (extractEvents t targetID e0 env s).decision = none ∧
      (extractEvents t targetID e0 env s).state.startCoords = s.startCoords ∧
      (extractEvents t targetID e0 env s).state.startTime = s.startTime ∧
      (extractEvents t targetID e0 env s).state.trackingTouchEvent = s.trackingTouchEvent ∧
      (extractEvents t targetID e0 env s).state.lastTapTime = s.lastTapTime) := by
  unfold extractEvents
  rw [htouch]
  simp only [if_true]
  by_cases hd : jlt (jsub (toNumber (defaultTimeStamp env.now e0).timeStamp) s.lastTapTime)
      (.num tapDelay) = true
  · rw [if_pos hd]
    exact ⟨rfl, fun _ => ⟨rfl, rfl, rfl, rfl, rfl⟩⟩
  · rw [if_neg hd]
    refine ⟨?_, fun h => absurd h hd⟩
    exact gestureMachine_lastTouchEvent t targetID (defaultTimeStamp env.now e0) env
      { s with lastTouchEvent := (defaultTimeStamp env.now e0).timeStamp }

/-- C3 witness: a touch start at t = 100 after a tap recorded at t = 0
(elapsed 100 < 200) is rejected with only `lastTouchEvent` advanced. -/
theorem claim3_touch_debounce_witness :
    isTouch .topTouchStart = true ∧
    ((extractEvents .topTouchStart 7 (touchEventAt 100 0 0) flatEnv
        { initialState with lastTapTime := .num 0 }).state.lastTouchEvent =
      (defaultTimeStamp flatEnv.now (touchEventAt 100 0 0)).timeStamp ∧
    (jlt (jsub (toNumber (defaultTimeStamp flatEnv.now (touchEventAt 100 0 0)).timeStamp)
        ({ initialState with lastTapTime := JSNum.num 0 } : GestureState).lastTapTime)
        (.num tapDelay) = true →
      (extractEvents .topTouchStart 7 (touchEventAt 100 0 0) flatEnv
        { initialState with lastTapTime := .num 0 }).decision = none ∧
      (extractEvents .topTouchStart 7 (touchEventAt 100 0 0) flatEnv
        { initialState with lastTapTime := .num 0 }).state.startCoords =
        ({ initialState with lastTapTime := JSNum.num 0 } : GestureState).startCoords ∧
      (extractEvents .topTouchStart 7 (touchEventAt 100 0 0) flatEnv
        { initialState with lastTapTime := .num 0 }).state.startTime =
        ({ initialState with lastTapTime := JSNum.num 0 } : GestureState).startTime ∧
      (extractEvents .topTouchStart 7 (touchEventAt 100 0 0) flatEnv
        { initialState with lastTapTime := .num 0 }).state.trackingTouchEvent =
        ({ initialState with lastTapTime := JSNum.num 0 } : GestureState).trackingTouchEvent ∧
      (extractEvents .topTouchStart 7 (touchEventAt 100 0 0) flatEnv
        { initialState with lastTapTime := .num 0 }).state.lastTapTime =
        ({ initialState with lastTapTime := JSNum.num 0 } : GestureState).lastTapTime)) :=
  ⟨by decide,
    claim3_touch_debounce .topTouchStart 7 (touchEventAt 100 0 0) flatEnv
      { initialState with lastTapTime := .num 0 } (by decide)⟩

/-- C4 counterexample. A touch event seen at timestamp 0 leaves
`lastTouchEvent = 0` — "a touch was previously seen" — yet a mouse-down
300 ms later (300 < `ignoreMouseThreshold`) is NOT rejected: the claim says
every field of the state stays unchanged, but the state machine processes the
mouse-down and flips `trackingTouchEvent` from `false` to `true`, because the
source guards the suppression with JavaScript truthiness (`lastTouchEvent &&`)
and the number 0 is falsy. -/
theorem claim4_counterexample :
    (run [inputOf .topTouchStart (touchEventAt 0 100 100)]).lastTouchEvent = JSVal.num 0 ∧
    isTouch .topMouseDown = false ∧
    ((300 : Int) - 0 < ignoreMouseThreshold) ∧
    (run [inputOf .topTouchStart (touchEventAt 0 100 100)]).trackingTouchEvent = false ∧
    (stepState (run [inputOf .topTouchStart (touchEventAt 0 100 100)])
        (inputOf .topMouseDown (mouseEventAt 300 100 100))).trackingTouchEvent = true := by
  decide

/-- C4 as amended: a mouse-origin event is rejected before any state-machine
processing, with the whole `GestureState` unchanged, when the previously seen
touch timestamp is truthy (present, nonzero and not `NaN`) and the event's
timestamp minus it is strictly below `ignoreMouseThreshold`. -/
theorem claim4_amended_mouse_suppression (t : TopLevelType) (targetID : Nat)
    (e0 : NativeEvent) (env : Env) (s : GestureState)
    (hmouse : isTouch t = false)
    (htruthy : truthy s.lastTouchEvent = true)
    (hrecent : jlt (jsub (toNumber (defaultTimeStamp env.now e0).timeStamp)
      (toNumber s.lastTouchEvent)) (.num ignoreMouseThreshold) = true) :
    (extractEvents t targetID e0 env s).decision = none ∧
    (extractEvents t targetID e0 env s).state = s := by
  unfold extractEvents
  rw [hmouse]
  simp only [Bool.false_eq_true, if_false, htruthy, hrecent, Bool.and_self, if_true]
  exact ⟨trivial, trivial⟩

/-- C4 amended witness: after a touch at t = 100, a mouse-down at t = 400
(elapsed 300 < 750) is suppressed with the state unchanged. -/
theorem claim4_amended_witness :
    (extractEvents .topMouseDown 7 (mouseEventAt 400 100 100) flatEnv
        (run [inputOf .topTouchStart (touchEventAt 100 100 100)])).decision = none ∧
    (extractEvents .topMouseDown 7 (mouseEventAt 400 100 100) flatEnv
        (run [inputOf .topTouchStart (touchEventAt 100 100 100)])).state =
      run [inputOf .topTouchStart (touchEventAt 100 100 100)] :=
  claim4_amended_mouse_suppression .topMouseDown 7 (mouseEventAt 400 100 100) flatEnv
    (run [inputOf .topTouchStart (touchEventAt 100 100 100)])
    (by decide) (by decide) (by decide)

/-- C10. `extractEvents` writes the current time into the event's `timeStamp`
field exactly when that field is `null`/`undefined`, before any other
processing; otherwise the caller's event object is left untouched. The
in-place write is modelled by `StepResult.finalEvent`, the event object as the
caller observes it after the call. -/
theorem claim10_timestamp_write (t : TopLevelType) (targetID : Nat)
    (e0 : NativeEvent) (env : Env) (s : GestureState) :
    ((e0.timeStamp = JSVal.null ∨ e0.timeStamp = JSVal.undef) →
      (extractEvents t targetID e0 env s).finalEvent =
        { e0 with timeStamp := JSVal.num env.now }) ∧
    (¬(e0.timeStamp = JSVal.null ∨ e0.timeStamp = JSVal.undef) →
      (extractEvents t targetID e0 env s).finalEvent = e0) := by
  rw [extractEvents_finalEvent]
  unfold defaultTimeStamp
  constructor
  · intro h
    rw [if_pos h]
  · intro h
    rw [if_neg h]

/-- C10 witness: an event with a `null` timestamp comes back with the clock
value written in; an event with a numeric timestamp comes back unmodified. -/
theorem claim10_timestamp_write_witness :
    (extractEvents .topMouseDown 7
        { mouseEventAt 0 5 5 with timeStamp := JSVal.null } flatEnv initialState).finalEvent =
      { ({ mouseEventAt 0 5 5 with timeStamp := JSVal.null } : NativeEvent) with
          timeStamp := JSVal.num flatEnv.now } ∧
    (extractEvents .topMouseDown 7 (mouseEventAt 42 5 5) flatEnv initialState).finalEvent =
      mouseEventAt 42 5 5 :=
  ⟨(claim10_timestamp_write .topMouseDown 7
      { mouseEventAt 0 5 5 with timeStamp := JSVal.null } flatEnv initialState).1
      (Or.inl rfl),
   (claim10_timestamp_write .topMouseDown 7 (mouseEventAt 42 5 5) flatEnv initialState).2
      (by decide)⟩

/-- `NaN` propagates through subtraction (left). -/
@[simp] theorem jsub_nan_left (b : JSNum) : jsub .nan b = .nan := by
  cases b <;> rfl

/-- `NaN` propagates through subtraction (right). -/
@[simp] theorem jsub_nan_right (a : JSNum) : jsub a .nan = .nan := by
  cases a <;> rfl

/-- `NaN` propagates through multiplication (left). -/
@[simp] theorem jmul_nan_left (b : JSNum) : jmul .nan b = .nan := by
  cases b <;> rfl

/-- `NaN` propagates through addition (left). -/
@[simp] theorem jadd_nan_left (b : JSNum) : jadd .nan b = .nan := by
  cases b <;> rfl

/-- `NaN` propagates through addition (right). -/
@[simp] theorem jadd_nan_right (a : JSNum) : jadd a .nan = .nan := by
  cases a <;> rfl

/-- A comparison whose left side is `NaN` is false. -/
@[simp] theorem jlt_nan_left (b : JSNum) : jlt .nan b = false := by
  cases b <;> rfl

/-- The proximity/timing gate fails whenever either extracted axis coordinate
coerces to `NaN` (absent single-touch page field, or missing page and client
fields). -/
theorem touchWithinBoundaries_nan (coords : Coords) (st : JSNum)
    (e : NativeEvent) (env : Env)
    (habs : toNumber (getAxisCoordOfEvent .x e env) = JSNum.nan ∨
      toNumber (getAxisCoordOfEvent .y e env) = JSNum.nan) :
    touchWithinBoundaries coords st e env = false := by
  unfold touchWithinBoundaries getDistanceLtThreshold getDistanceSq
  rcases habs with h | h <;> rw [h] <;> simp

/-- An accepted end-ish event processed from an Idle (not tracking) state:
no decision, still Idle, coordinates reset to the neutral origin when the
event was accepted and untouched when rejected, `startTime` and `lastTapTime`
untouched. -/
theorem endish_idle_step (t : TopLevelType) (targetID : Nat) (e0 : NativeEvent)
    (env : Env) (s : GestureState)
    (hend : isEndish t = true) (hidle : s.trackingTouchEvent = false) :
    (extractEvents t targetID e0 env s).decision = none ∧
    (extractEvents t targetID e0 env s).state.trackingTouchEvent = false ∧
    (extractEvents t targetID e0 env s).state.startCoords =
      (if accepted t e0 env s then { x := JSVal.num 0, y := JSVal.num 0 }
        else s.startCoords) ∧
    (extractEvents t targetID e0 env s).state.startTime = s.startTime ∧
    (extractEvents t targetID e0 env s).state.lastTapTime = s.lastTapTime := by
  have hns : isStartish t = false := endish_not_startish t hend
  rw [extractEvents_eq]
  cases hacc : accepted t e0 env s
  · simp [hidle]
  · simp only [if_true]
    unfold gestureMachine
    rw [hns, hend]
    simp [hidle]

/-- C7 counterexample. The state reached by a touch start at (100,100), t=300
followed by a far touch move at t=400 is Idle but with stale `startCoords`
(100,100); an accepted end-ish event then changes the state (coordinates are
rewritten to the neutral origin), contradicting "the state is left
unchanged". -/
theorem claim7_counterexample :
    (run [inputOf .topTouchStart (touchEventAt 300 100 100),
        inputOf .topTouchMove (touchEventAt 400 200 100)]).trackingTouchEvent = false ∧
    (run [inputOf .topTouchStart (touchEventAt 300 100 100),
        inputOf .topTouchMove (touchEventAt 400 200 100)]).startCoords =
      { x := JSVal.num 100, y := JSVal.num 100 } ∧
    isEndish .topTouchEnd = true ∧
    acceptedAt (run [inputOf .topTouchStart (touchEventAt 300 100 100),
        inputOf .topTouchMove (touchEventAt 400 200 100)])
      (inputOf .topTouchEnd (touchEventAt 700 200 100)) = true ∧
    (stepState (run [inputOf .topTouchStart (touchEventAt 300 100 100),
        inputOf .topTouchMove (touchEventAt 400 200 100)])
      (inputOf .topTouchEnd (touchEventAt 700 200 100))).startCoords =
      { x := JSVal.num 0, y := JSVal.num 0 } ∧
    stepState (run [inputOf .topTouchStart (touchEventAt 300 100 100),
        inputOf .topTouchMove (touchEventAt 400 200 100)])
      (inputOf .topTouchEnd (touchEventAt 700 200 100)) ≠
      run [inputOf .topTouchStart (touchEventAt 300 100 100),
        inputOf .topTouchMove (touchEventAt 400 200 100)] := by
  decide

/-- C7 as amended: an accepted end-ish event in an Idle state emits nothing,
resets `startCoords` to the neutral origin and stays Idle, leaving `startTime`
and `lastTapTime` untouched (a touch-origin event still records
`lastTouchEvent`); consequently a further end-ish event from the resulting
state again emits nothing, keeps the neutral coordinates and stays Idle, so
the reset is idempotent. -/
theorem claim7_amended_idle_endish (t : TopLevelType) (targetID : Nat)
    (e0 : NativeEvent) (env : Env) (s : GestureState)
    (hend : isEndish t = true)
    (hacc : accepted t e0 env s = true)
    (hidle : s.trackingTouchEvent = false) :
    (extractEvents t targetID e0 env s).decision = none ∧
    (extractEvents t targetID e0 env s).state.startCoords =
      { x := JSVal.num 0, y := JSVal.num 0 } ∧
    (extractEvents t targetID e0 env s).state.trackingTouchEvent = false ∧
    (extractEvents t targetID e0 env s).state.startTime = s.startTime ∧
    (extractEvents t targetID e0 env s).state.lastTapTime = s.lastTapTime ∧
    (∀ (t2 : TopLevelType) (targetID2 : Nat) (e2 : NativeEvent) (env2 : Env),
      isEndish t2 = true →
        (extractEvents t2 targetID2 e2 env2
          (extractEvents t targetID e0 env s).state).decision = none ∧
        (extractEvents t2 targetID2 e2 env2
          (extractEvents t targetID e0 env s).state).state.startCoords =
          { x := JSVal.num 0, y := JSVal.num 0 } ∧
        (extractEvents t2 targetID2 e2 env2
          (extractEvents t targetID e0 env s).state).state.trackingTouchEvent = false) := by
  obtain ⟨h1, h2, h3, h4, h5⟩ := endish_idle_step t targetID e0 env s hend hidle
  rw [hacc] at h3
  simp only [if_true] at h3
  refine ⟨h1, h3, h2, h4, h5, ?_⟩
  intro t2 targetID2 e2 env2 hend2
  obtain ⟨g1, g2, g3, _, _⟩ :=
    endish_idle_step t2 targetID2 e2 env2 (extractEvents t targetID e0 env s).state hend2 h2
  refine ⟨g1, ?_, g2⟩
  rw [g3, h3]
  split <;> rfl

/-- C7 amended witness: from the Idle state left by a cancelled gesture, a
touch end at t = 700 resets the coordinates and stays Idle without emitting. -/
theorem claim7_amended_witness :
    (extractEvents .topTouchEnd 7 (touchEventAt 700 200 100) flatEnv
        (run [inputOf .topTouchStart (touchEventAt 300 100 100),
          inputOf .topTouchMove (touchEventAt 400 200 100)])).decision = none ∧
    (extractEvents .topTouchEnd 7 (touchEventAt 700 200 100) flatEnv
        (run [inputOf .topTouchStart (touchEventAt 300 100 100),
          inputOf .topTouchMove (touchEventAt 400 200 100)])).state.startCoords =
      { x := JSVal.num 0, y := JSVal.num 0 } ∧
    (extractEvents .topTouchEnd 7 (touchEventAt 700 200 100) flatEnv
        (run [inputOf .topTouchStart (touchEventAt 300 100 100),
          inputOf .topTouchMove (touchEventAt 400 200 100)])).state.trackingTouchEvent =
      false :=
  ⟨(claim7_amended_idle_endish .topTouchEnd 7 (touchEventAt 700 200 100) flatEnv
      (run [inputOf .topTouchStart (touchEventAt 300 100 100),
        inputOf .topTouchMove (touchEventAt 400 200 100)])
      (by decide) (by decide) (by decide)).1,
   (claim7_amended_idle_endish .topTouchEnd 7 (touchEventAt 700 200 100) flatEnv
      (run [inputOf .topTouchStart (touchEventAt 300 100 100),
        inputOf .topTouchMove (touchEventAt 400 200 100)])
      (by decide) (by decide) (by decide)).2.1,
   (claim7_amended_idle_endish .topTouchEnd 7 (touchEventAt 700 200 100) flatEnv
      (run [inputOf .topTouchStart (touchEventAt 300 100 100),
        inputOf .topTouchMove (touchEventAt 400 200 100)])
      (by decide) (by decide) (by decide)).2.2.1⟩

/-- C6 counterexample. After an accepted touch start at t=300, an accepted
touch move at t=400 at the same position passes the gate, yet the
`GestureState` is not unchanged: `lastTouchEvent` advances from 300 to 400,
because every touch-origin event records its timestamp during arbitration. -/
theorem claim6_counterexample :
    isStartish .topTouchMove = false ∧
    isEndish .topTouchMove = false ∧
    acceptedAt (run [inputOf .topTouchStart (touchEventAt 300 100 100)])
      (inputOf .topTouchMove (touchEventAt 400 100 100)) = true ∧
    (run [inputOf .topTouchStart (touchEventAt 300 100 100)]).trackingTouchEvent = true ∧
    touchWithinBoundaries
      (run [inputOf .topTouchStart (touchEventAt 300 100 100)]).startCoords
      (run [inputOf .topTouchStart (touchEventAt 300 100 100)]).startTime
      (defaultTimeStamp 0 (touchEventAt 400 100 100)) flatEnv = true ∧
    stepState (run [inputOf .topTouchStart (touchEventAt 300 100 100)])
      (inputOf .topTouchMove (touchEventAt 400 100 100)) ≠
      run [inputOf .topTouchStart (touchEventAt 300 100 100)] := by
  decide

/-- C6 as amended: an accepted move-ish event emits no tap; `startCoords`,
`startTime` and `lastTapTime` are untouched; tracking survives exactly when it
was on and the gate passes (a tracked gesture failing the gate is silently
cancelled, an Idle state stays Idle); and a touch-origin event additionally
records its timestamp in `lastTouchEvent`. -/
theorem claim6_amended_moveish (t : TopLevelType) (targetID : Nat)
    (e0 : NativeEvent) (env : Env) (s : GestureState)
    (hns : isStartish t = false) (hne : isEndish t = false)
    (hacc : accepted t e0 env s = true) :
    (extractEvents t targetID e0 env s).decision = none ∧
    (extractEvents t targetID e0 env s).state.startCoords = s.startCoords ∧
    (extractEvents t targetID e0 env s).state.startTime = s.startTime ∧
    (extractEvents t targetID e0 env s).state.lastTapTime = s.lastTapTime ∧
    (extractEvents t targetID e0 env s).state.trackingTouchEvent =
      (s.trackingTouchEvent &&
        touchWithinBoundaries s.startCoords s.startTime
          (defaultTimeStamp env.now e0) env) ∧
    (extractEvents t targetID e0 env s).state.lastTouchEvent =
      (if isTouch t then (defaultTimeStamp env.now e0).timeStamp
        else s.lastTouchEvent) := by
  rw [extractEvents_eq, if_pos hacc]
  unfold gestureMachine
  rw [hns, hne]
  simp only [Bool.false_eq_true, if_false]
  cases hto : isTouch t <;>
    cases htr : s.trackingTouchEvent <;>
      cases hg : touchWithinBoundaries s.startCoords s.startTime
          (defaultTimeStamp env.now e0) env <;>
        simp [arbiterState, hto, htr, hg]

/-- C6 amended witness: an accepted touch move at t=400 over an open gesture
started at t=300 passes the gate, keeps tracking, and records t=400 in
`lastTouchEvent`. -/
theorem claim6_amended_witness :
    (extractEvents .topTouchMove 7 (touchEventAt 400 100 100) flatEnv
        (run [inputOf .topTouchStart (touchEventAt 300 100 100)])).decision = none ∧
    (extractEvents .topTouchMove 7 (touchEventAt 400 100 100) flatEnv
        (run [inputOf .topTouchStart (touchEventAt 300 100 100)])).state.startCoords =
      (run [inputOf .topTouchStart (touchEventAt 300 100 100)]).startCoords ∧
    (extractEvents .topTouchMove 7 (touchEventAt 400 100 100) flatEnv
        (run [inputOf .topTouchStart (touchEventAt 300 100 100)])).state.startTime =
      (run [inputOf .topTouchStart (touchEventAt 300 100 100)]).startTime ∧
    (extractEvents .topTouchMove 7 (touchEventAt 400 100 100) flatEnv
        (run [inputOf .topTouchStart (touchEventAt 300 100 100)])).state.lastTapTime =
      (run [inputOf .topTouchStart (touchEventAt 300 100 100)]).lastTapTime ∧
    (extractEvents .topTouchMove 7 (touchEventAt 400 100 100) flatEnv
        (run [inputOf .topTouchStart (touchEventAt 300 100 100)])).state.trackingTouchEvent =
      ((run [inputOf .topTouchStart (touchEventAt 300 100 100)]).trackingTouchEvent &&
        touchWithinBoundaries
          (run [inputOf .topTouchStart (touchEventAt 300 100 100)]).startCoords
          (run [inputOf .topTouchStart (touchEventAt 300 100 100)]).startTime
          (defaultTimeStamp flatEnv.now (touchEventAt 400 100 100)) flatEnv) ∧
    (extractEvents .topTouchMove 7 (touchEventAt 400 100 100) flatEnv
        (run [inputOf .topTouchStart (touchEventAt 300 100 100)])).state.lastTouchEvent =
      (if isTouch .topTouchMove
        then (defaultTimeStamp flatEnv.now (touchEventAt 400 100 100)).timeStamp
        else (run [inputOf .topTouchStart (touchEventAt 300 100 100)]).lastTouchEvent) :=
  claim6_amended_moveish .topTouchMove 7 (touchEventAt 400 100 100) flatEnv
    (run [inputOf .topTouchStart (touchEventAt 300 100 100)])
    (by decide) (by decide) (by decide)

/-- C9. When coordinate extraction coerces to `NaN` on either axis (no
extractable single touch with a page field, no page coordinate field and a
missing client coordinate), the proximity/timing gate evaluates to false —
disqualifying the gesture exactly like an out-of-bounds move — and the call
emits no tap; being a total Lean function, the processing step cannot crash. -/
theorem claim9_absent_coordinates (t : TopLevelType) (targetID : Nat)
    (e0 : NativeEvent) (env : Env) (s : GestureState) (coords : Coords) (st : JSNum)
    (habs : toNumber (getAxisCoordOfEvent .x e0 env) = JSNum.nan ∨
      toNumber (getAxisCoordOfEvent .y e0 env) = JSNum.nan) :
    touchWithinBoundaries coords st e0 env = false ∧
    (extractEvents t targetID e0 env s).decision = none := by
  have habsd : toNumber (getAxisCoordOfEvent .x (defaultTimeStamp env.now e0) env) = JSNum.nan ∨
      toNumber (getAxisCoordOfEvent .y (defaultTimeStamp env.now e0) env) = JSNum.nan := by
    rcases habs with h | h
    · exact Or.inl (by rwa [getAxisCoordOfEvent_default])
    · exact Or.inr (by rwa [getAxisCoordOfEvent_default])
  refine ⟨touchWithinBoundaries_nan coords st e0 env habs, ?_⟩
  rw [extractEvents_eq]
  cases hacc : accepted t e0 env s
  · simp
  · simp only [if_true]
    cases hd : (gestureMachine t targetID (defaultTimeStamp env.now e0) env
        (arbiterState t (defaultTimeStamp env.now e0) s)).1
    · rfl
    · obtain ⟨_, _, hgate, _⟩ := gestureMachine_decision _ _ _ _ _ _ hd
      rw [touchWithinBoundaries_nan _ _ _ _ habsd] at hgate
      exact absurd hgate (by simp)

/-- C9 witness: an event with no single touch, no page fields and no client
fields extracts `NaN` on the x axis, fails the gate from any stored start, and
produces no tap. -/
theorem claim9_absent_coordinates_witness :
    touchWithinBoundaries { x := JSVal.num 100, y := JSVal.num 100 } (JSNum.num 0)
      { timeStamp := JSVal.num 300, singleTouch := none, pageX := none, pageY := none,
        clientX := none, clientY := none } flatEnv = false ∧
    (extractEvents .topTouchEnd 7
      { timeStamp := JSVal.num 300, singleTouch := none, pageX := none, pageY := none,
        clientX := none, clientY := none } flatEnv
      { startCoords := { x := JSVal.num 100, y := JSVal.num 100 }, startTime := JSNum.num 0,
        lastTouchEvent := JSVal.null, lastTapTime := JSNum.num 0,
        trackingTouchEvent := true }).decision = none :=
  claim9_absent_coordinates .topTouchEnd 7
    { timeStamp := JSVal.num 300, singleTouch := none, pageX := none, pageY := none,
      clientX := none, clientY := none } flatEnv
    { startCoords := { x := JSVal.num 100, y := JSVal.num 100 }, startTime := JSNum.num 0,
      lastTouchEvent := JSVal.null, lastTapTime := JSNum.num 0,
      trackingTouchEvent := true }
    { x := JSVal.num 100, y := JSVal.num 100 } (JSNum.num 0)
    (Or.inl rfl)

/-- A pure mouse sequence producing two taps 50 ms apart: mouse down t=0,
mouse up t=50, mouse down t=60, mouse up t=100, all at the origin. -/
def claim8Seq : List Input :=
  [inputOf .topMouseDown (mouseEventAt 0 0 0),
   inputOf .topMouseUp (mouseEventAt 50 0 0),
   inputOf .topMouseDown (mouseEventAt 60 0 0),
   inputOf .topMouseUp (mouseEventAt 100 0 0)]

/-- C8 counterexample. The `tapDelay` debounce guards only touch-origin
events, so a pure mouse stream emits two taps only 50 ms apart: the first
tap's recorded tap time is 50 and the second tap's timestamp is 100, with
100 − 50 < 200. -/
theorem claim8_counterexample :
    (runTaps claim8Seq).map (fun d => d.nativeEvent.timeStamp) =
      [JSVal.num 50, JSVal.num 100] ∧
    (runFrom initialState (claim8Seq.take 2)).lastTapTime = JSNum.num 50 ∧
    ¬ (tapDelay ≤ (100 : Int) - 50) := by
  decide

/-- C8 as amended: the 200 ms debounce holds for touch-origin taps — whenever
a tap decision is emitted for a touch-origin event, the event's timestamp
exceeds the `lastTapTime` it replaces (the most recent earlier tap's recorded
time) by at least `tapDelay`; mouse-origin taps are not subject to this
debounce. -/
theorem claim8_amended_touch_debounce (t : TopLevelType) (targetID : Nat)
    (e0 : NativeEvent) (env : Env) (s : GestureState) (L : Int) (d : TapDecision)
    (htouch : isTouch t = true)
    (hlast : s.lastTapTime = JSNum.num L)
    (hemit : (extractEvents t targetID e0 env s).decision = some d) :
    ∃ T, d.nativeEvent.timeStamp = JSVal.num T ∧
      (extractEvents t targetID e0 env s).state.lastTapTime = JSNum.num T ∧
      tapDelay ≤ T - L := by
  rw [extractEvents_eq] at hemit ⊢
  cases hacc : accepted t e0 env s
  · rw [hacc] at hemit
    simp at hemit
  · rw [hacc] at hemit
    rw [if_pos (rfl : true = true)] at hemit
    rw [if_pos (rfl : true = true)]
    have hemit2 : (gestureMachine t targetID (defaultTimeStamp env.now e0) env
        (arbiterState t (defaultTimeStamp env.now e0) s)).1 = some d := hemit
    obtain ⟨hdq, _, hgate, hlast2⟩ := gestureMachine_decision _ _ _ _ _ _ hemit2
    have htime : jlt (jsub (toNumber (defaultTimeStamp env.now e0).timeStamp)
        (arbiterState t (defaultTimeStamp env.now e0) s).startTime) (.num tapMaxTime) = true := by
      unfold touchWithinBoundaries at hgate
      exact (Bool.and_eq_true _ _ |>.mp hgate).2
    rcases defaultTimeStamp_cases env.now e0 with hnan | ⟨T, hT⟩
    · rw [hnan] at htime
      simp [toNumber] at htime
    · refine ⟨T, ?_, ?_, ?_⟩
      · rw [hdq]
        exact hT
      · show (gestureMachine t targetID (defaultTimeStamp env.now e0) env
            (arbiterState t (defaultTimeStamp env.now e0) s)).2.lastTapTime = JSNum.num T
        rw [hlast2, hT]
        rfl
      · have hacc2 : jlt (jsub (toNumber (defaultTimeStamp env.now e0).timeStamp)
            s.lastTapTime) (.num tapDelay) = false := by
          unfold accepted at hacc
          rw [htouch] at hacc
          simpa using hacc
        rw [hT, hlast] at hacc2
        simp only [toNumber, jsub, jlt, decide_eq_false_iff_not, not_lt] at hacc2
        simp only [tapDelay] at hacc2 ⊢
        omega

/-- C8 amended witness: a touch tap at t=1000 recorded over a previous tap
time of 0 satisfies 1000 − 0 ≥ 200. -/
theorem claim8_amended_witness :
    ∃ T, (TapDecision.mk 7
        (defaultTimeStamp flatEnv.now (touchEventAt 1000 100 100))).nativeEvent.timeStamp =
          JSVal.num T ∧
      (extractEvents .topTouchEnd 7 (touchEventAt 1000 100 100) flatEnv
        { startCoords := { x := JSVal.num 100, y := JSVal.num 100 },
          startTime := JSNum.num 900, lastTouchEvent := JSVal.num 900,
          lastTapTime := JSNum.num 0, trackingTouchEvent := true }).state.lastTapTime =
        JSNum.num T ∧
      tapDelay ≤ T - 0 :=
  claim8_amended_touch_debounce .topTouchEnd 7 (touchEventAt 1000 100 100) flatEnv
    { startCoords := { x := JSVal.num 100, y := JSVal.num 100 },
      startTime := JSNum.num 900, lastTouchEvent := JSVal.num 900,
      lastTapTime := JSNum.num 0, trackingTouchEvent := true } 0
    (TapDecision.mk 7 (defaultTimeStamp flatEnv.now (touchEventAt 1000 100 100)))
    (by decide) (by decide) (by decide)

/-- C2. When the stored start coordinates and the event's extracted
coordinates and timestamp are all numeric, `touchWithinBoundaries` is true iff
the Euclidean distance between start and event is strictly below
`tapMoveThreshold` and the elapsed time since the stored start is strictly
below `tapMaxTime`. Boundary values (distance exactly 10, or elapsed exactly
600) make the right-hand side false, hence fail the gate. The source compares
`Math.pow(dx*dx + dy*dy, 0.5) < tapMoveThreshold`, which for these inputs is
exactly the real square-root comparison stated here. -/
theorem claim2_gate_iff (cx cy stv px py ts : Int) (e : NativeEvent) (env : Env)
    (hx : getAxisCoordOfEvent .x e env = JSVal.num px)
    (hy : getAxisCoordOfEvent .y e env = JSVal.num py)
    (hts : e.timeStamp = JSVal.num ts) :
    touchWithinBoundaries { x := JSVal.num cx, y := JSVal.num cy } (JSNum.num stv)
        e env = true ↔
      (Real.sqrt (((px - cx) ^ 2 + (py - cy) ^ 2 : Int) : ℝ) < (tapMoveThreshold : ℝ) ∧
        ts - stv < tapMaxTime) := by
  have hring : ((px - cx) ^ 2 + (py - cy) ^ 2 : Int) =
      (px - cx) * (px - cx) + (py - cy) * (py - cy) := by ring
  have hsq : Real.sqrt (((px - cx) ^ 2 + (py - cy) ^ 2 : Int) : ℝ) <
      (tapMoveThreshold : ℝ) ↔
      (px - cx) * (px - cx) + (py - cy) * (py - cy) <
        tapMoveThreshold * tapMoveThreshold := by
    rw [Real.sqrt_lt' (by norm_num [tapMoveThreshold])]
    rw [show ((tapMoveThreshold : Int) : ℝ) ^ 2 =
        ((tapMoveThreshold * tapMoveThreshold : Int) : ℝ) by
      push_cast
      ring]
    rw [Int.cast_lt, hring]
  unfold touchWithinBoundaries getDistanceLtThreshold getDistanceSq
  rw [hx, hy, hts]
  simp only [toNumber, jsub, jmul, jadd, jlt, Bool.and_eq_true, decide_eq_true_eq]
  rw [hsq]

/-- C2 witness: start (100,100) at t = 0, event (103,104) at t = 300 —
distance 5 and elapsed 300, so both the gate and the stated bound hold. -/
theorem claim2_gate_iff_witness :
    touchWithinBoundaries { x := JSVal.num 100, y := JSVal.num 100 } (JSNum.num 0)
        (touchEventAt 300 103 104) flatEnv = true ↔
      (Real.sqrt ((((103 : Int) - 100) ^ 2 + ((104 : Int) - 100) ^ 2 : Int) : ℝ) <
          (tapMoveThreshold : ℝ) ∧
        (300 : Int) - 0 < tapMaxTime) :=
  claim2_gate_iff 100 100 0 103 104 300 (touchEventAt 300 103 104) flatEnv rfl rfl rfl

/-- Running one more input after a list steps the final state once. -/
theorem run_concat (l : List Input) (x : Input) :
    run (l ++ [x]) = stepState (run l) x := by
  simp [run, runFrom, List.foldl_append]

/-- Running across a decomposition `pre ++ i :: suf`. -/
theorem run_append_cons (pre : List Input) (i : Input) (suf : List Input) :
    run (pre ++ i :: suf) = runFrom (stepState (run pre) i) suf := by
  simp [run, runFrom, List.foldl_append]

/-- A boundary-free suffix extended by one more non-boundary input is still
boundary-free. -/
theorem noGestureBoundaryFrom_append (s : GestureState) (l : List Input) (x : Input)
    (h : noGestureBoundaryFrom s l = true)
    (hx : (acceptedAt (runFrom s l) x &&
      (isStartish x.topLevelType || isEndish x.topLevelType)) = false) :
    noGestureBoundaryFrom s (l ++ [x]) = true := by
  induction l generalizing s with
  | nil =>
    simp only [runFrom, List.foldl_nil] at hx
    simp [noGestureBoundaryFrom, hx]
  | cons i rest ih =>
    simp only [noGestureBoundaryFrom, Bool.and_eq_true] at h
    simp only [runFrom, List.foldl_cons] at hx
    simp only [List.cons_append, noGestureBoundaryFrom, Bool.and_eq_true]
    exact ⟨h.1, ih (stepState s i) h.2 hx⟩

/-- Case analysis of one step that ends with tracking on: either the input was
an accepted start-ish event and the stored coordinates/time are its
extraction, or tracking was already on, the stored coordinates/time are
untouched and the input was not an accepted start-ish or end-ish event. -/
theorem stepState_tracking_cases (s : GestureState) (i : Input)
    (h : (stepState s i).trackingTouchEvent = true) :
    (acceptedAt s i = true ∧ isStartish i.topLevelType = true ∧
      (stepState s i).startCoords = inputStartCoords i ∧
      (stepState s i).startTime = inputStartTime i) ∨
    (s.trackingTouchEvent = true ∧
      (stepState s i).startCoords = s.startCoords ∧
      (stepState s i).startTime = s.startTime ∧
      (acceptedAt s i && (isStartish i.topLevelType || isEndish i.topLevelType)) = false) := by
  unfold stepState at h ⊢
  unfold acceptedAt
  by_cases hacc : accepted i.topLevelType i.nativeEvent i.env s = true
  · rw [extractEvents_eq, if_pos hacc] at h ⊢
    have h2 : (gestureMachine i.topLevelType i.targetID
        (defaultTimeStamp i.env.now i.nativeEvent) i.env
        (arbiterState i.topLevelType (defaultTimeStamp i.env.now i.nativeEvent) s)).2.trackingTouchEvent =
        true := h
    cases hst : isStartish i.topLevelType
    · cases hend : isEndish i.topLevelType
      · unfold gestureMachine at h2 ⊢
        rw [hst, hend] at h2 ⊢
        simp only [Bool.false_eq_true, if_false] at h2 ⊢
        rcases Bool.eq_false_or_eq_true
            ((arbiterState i.topLevelType (defaultTimeStamp i.env.now i.nativeEvent)
              s).trackingTouchEvent &&
            !touchWithinBoundaries
              (arbiterState i.topLevelType (defaultTimeStamp i.env.now i.nativeEvent) s).startCoords
              (arbiterState i.topLevelType (defaultTimeStamp i.env.now i.nativeEvent) s).startTime
              (defaultTimeStamp i.env.now i.nativeEvent) i.env) with hcond | hcond
        · rw [hcond] at h2
          simp at h2
        · rw [hcond] at h2 ⊢
          simp only [Bool.false_eq_true, if_false] at h2 ⊢
          right
          have htr2 : (arbiterState i.topLevelType (defaultTimeStamp i.env.now i.nativeEvent)
              s).trackingTouchEvent = true := h2
          rw [arbiterState_tracking] at htr2
          exact ⟨htr2, by simp, by simp, by simp [hst, hend]⟩
      · unfold gestureMachine at h2
        rw [hst, hend] at h2
        simp only [Bool.false_eq_true, if_false, if_true] at h2
        cases hcond : (arbiterState i.topLevelType (defaultTimeStamp i.env.now i.nativeEvent)
              s).trackingTouchEvent &&
            touchWithinBoundaries
              (arbiterState i.topLevelType (defaultTimeStamp i.env.now i.nativeEvent) s).startCoords
              (arbiterState i.topLevelType (defaultTimeStamp i.env.now i.nativeEvent) s).startTime
              (defaultTimeStamp i.env.now i.nativeEvent) i.env <;>
          rw [hcond] at h2 <;> simp at h2
    · left
      simp [gestureMachine, inputStartCoords, inputStartTime, hacc, hst]
  · rw [extractEvents_eq, if_neg hacc] at h ⊢
    right
    have htr : (arbiterState i.topLevelType (defaultTimeStamp i.env.now i.nativeEvent)
        s).trackingTouchEvent = true := h
    rw [arbiterState_tracking] at htr
    refine ⟨htr, by simp, by simp, ?_⟩
    rw [Bool.not_eq_true] at hacc
    simp [hacc]

/-- C5. In every state reachable from the initial state, tracking being on
means the input list splits as `pre ++ i :: suf` where `i` is an accepted
start-ish event, the stored `startCoords`/`startTime` are exactly `i`'s
extracted coordinates and (defaulted) timestamp, and no accepted start-ish or
end-ish event occurs in `suf` — so `i` is the most recent accepted start-ish
event and no accepted end-ish event followed it. -/
theorem claim5_tracking_invariant (l : List Input)
    (h : (run l).trackingTouchEvent = true) :
    ∃ pre i suf, l = pre ++ i :: suf ∧
      isStartish i.topLevelType = true ∧
      acceptedAt (run pre) i = true ∧
      (run l).startCoords = inputStartCoords i ∧
      (run l).startTime = inputStartTime i ∧
      noGestureBoundaryFrom (stepState (run pre) i) suf = true := by
  induction l using List.reverseRecOn with
  | nil => simp [run, runFrom, initialState] at h
  | append_singleton xs x ih =>
    rw [run_concat] at h ⊢
    rcases stepState_tracking_cases (run xs) x h with
      ⟨hacc, hst, hcoords, htime⟩ | ⟨htr, hcoords, htime, hbound⟩
    · exact ⟨xs, x, [], by simp, hst, hacc, hcoords, htime, by simp [noGestureBoundaryFrom]⟩
    · obtain ⟨pre, i, suf, hdec, hst, hacc, hc2, ht2, hnb⟩ := ih htr
      refine ⟨pre, i, suf ++ [x], ?_, hst, hacc, ?_, ?_, ?_⟩
      · rw [hdec]
        simp
      · rw [hcoords, hc2]
      · rw [htime, ht2]
      · apply noGestureBoundaryFrom_append _ _ _ hnb
        rw [← run_append_cons, ← hdec]
        exact hbound

/-- C5 witness: after a single accepted touch start at (100,100), t = 1000,
tracking is on and the invariant's decomposition exists. -/
theorem claim5_witness :
    (run [inputOf .topTouchStart (touchEventAt 1000 100 100)]).trackingTouchEvent = true ∧
    (∃ pre i suf,
      [inputOf .topTouchStart (touchEventAt 1000 100 100)] = pre ++ i :: suf ∧
      isStartish i.topLevelType = true ∧
      acceptedAt (run pre) i = true ∧
      (run [inputOf .topTouchStart (touchEventAt 1000 100 100)]).startCoords =
        inputStartCoords i ∧
      (run [inputOf .topTouchStart (touchEventAt 1000 100 100)]).startTime =
        inputStartTime i ∧
      noGestureBoundaryFrom (stepState (run pre) i) suf = true) :=
  ⟨by decide,
    claim5_tracking_invariant [inputOf .topTouchStart (touchEventAt 1000 100 100)] (by decide)⟩

end TapEventPluginModel
